import Mathlib

/-!
Shallow embedding of the Deal Structure Valuation Engine
(src/client/src/lib/financial-calculations.ts and the batch aggregation in
the calculator page component).  JavaScript numbers are modelled as exact
rationals; loops become structural recursion on a fuel argument equal to the
remaining loop iterations, threading the mutable state
(remainingBalance, cumulative) explicitly.  Each per-structure loop returns
the list of produced cash-flow rows together with the final value of
`remainingBalance` and `cumulative`.
-/

/-- Shared inputs for all calculators (`DealInputs` in deal-types). -/
structure DealInputs where
  purchasePrice : ℚ
  termLength : ℕ
  interestRate : ℚ
  taxRate : ℚ
  equityRetained : ℚ
  downPayment : Option ℚ
  balloonPayment : Option ℚ
deriving DecidableEq

/-- One row of the yearly schedule (`CashFlowRow`), generic in the number
type so that the same shape serves the exact-rational model and the
IEEE-special-value model used for the degenerate earn-out analysis. -/
structure CashFlowRowG (α : Type) where
  year : ℕ
  principal : α
  interest : α
  equityReturns : α
  preTaxTotal : α
  taxImpact : α
  netCashFlow : α
  cumulative : α
deriving DecidableEq

abbrev CashFlowRow := CashFlowRowG ℚ

/-- Result record of a structure calculator (`DealResults`). -/
structure DealResultsG (α : Type) where
  totalInvestment : α
  netProceeds : α
  roi : α
  irr : α
  cashFlow : List (CashFlowRowG α)
  npv : α
deriving DecidableEq

abbrev DealResults := DealResultsG ℚ

/-- The closed set of deal-type tags. -/
inductive DealType where
  | allCash
  | earnOut
  | sellerFinancing
  | sbaLoan
  | custom
deriving DecidableEq

/-- The stated preconditions on `DealInputs` (spec section 3).  The two
optional fields are constrained through `Option.getD`, which agrees with
"present implies nonnegative" because the default is `0`. -/
def ValidInputs (i : DealInputs) : Prop :=
  0 < i.purchasePrice ∧ 1 ≤ i.termLength ∧ i.termLength ≤ 30 ∧
  0 ≤ i.interestRate ∧ i.interestRate ≤ 50 ∧
  0 ≤ i.taxRate ∧ i.taxRate ≤ 60 ∧
  0 ≤ i.downPayment.getD 0 ∧ 0 ≤ i.balloonPayment.getD 0

instance (i : DealInputs) : Decidable (ValidInputs i) := by
  unfold ValidInputs; infer_instance

/-- `calculateMonthlyPayment`: level monthly payment of an amortizing loan,
with the zero-rate straight-line special case. -/
def calculateMonthlyPayment (principal annualRate : ℚ) (years : ℕ) : ℚ :=
  if annualRate = 0 then principal / ((years : ℚ) * 12)
  else
    let monthlyRate := annualRate / 100 / 12
    let numPayments := years * 12
    principal * (monthlyRate * (1 + monthlyRate) ^ numPayments) /
      ((1 + monthlyRate) ^ numPayments - 1)

/-- `calculateNPV`: discounts the flow at index `year` (0-based) by
`(1 + rate/100) ^ (year + 1)`. -/
def calculateNPV (cashFlows : List ℚ) (discountRate : ℚ) : ℚ :=
  cashFlows.enum.foldl
    (fun npv yc => npv + yc.2 / (1 + discountRate / 100) ^ (yc.1 + 1)) 0

/-- One Newton step of `calculateIRR`: the pair (npv, derivative) at the
current rate. -/
def irrStep (cashFlows : List ℚ) (rate : ℚ) : ℚ × ℚ :=
  cashFlows.enum.foldl
    (fun acc jc =>
      let factor := (1 + rate) ^ (jc.1 + 1)
      (acc.1 + jc.2 / factor,
       acc.2 - ((jc.1 : ℚ) + 1) * jc.2 / (factor * (1 + rate))))
    (0, 0)

/-- The bounded Newton iteration of `calculateIRR` (at most 100 updates,
early exit once `|npv| < 0.0001`). -/
def irrGo (cashFlows : List ℚ) : ℕ → ℚ → ℚ
  | 0, rate => rate
  | n + 1, rate =>
    let s := irrStep cashFlows rate
    if |s.1| < 1 / 10000 then rate else irrGo cashFlows n (rate - s.1 / s.2)

/-- `calculateIRR`: Newton iteration from the 10% starting guess, scaled to
a percentage. -/
def calculateIRR (cashFlows : List ℚ) : ℚ :=
  irrGo cashFlows 100 (1 / 10) * 100

/-- `calculateAllCash`: full price in year 1, zero rows for the remaining
years; NPV is taken over the pre-tax values `[price, 0, ...]`. -/
def calculateAllCash (inputs : DealInputs) : DealResults :=
  let purchasePrice := inputs.purchasePrice
  let taxImpact := purchasePrice * (inputs.taxRate / 100)
  let netProceeds := purchasePrice - taxImpact
  let firstRow : CashFlowRow :=
    { year := 1, principal := purchasePrice, interest := 0, equityReturns := 0,
      preTaxTotal := purchasePrice, taxImpact := -taxImpact,
      netCashFlow := netProceeds, cumulative := netProceeds }
  let laterRows : List CashFlowRow :=
    (List.range' 2 (inputs.termLength - 1)).map fun year =>
      { year := year, principal := 0, interest := 0, equityReturns := 0,
        preTaxTotal := 0, taxImpact := 0, netCashFlow := 0,
        cumulative := netProceeds }
  let cashFlow := firstRow :: laterRows
  let cashFlowValues := purchasePrice :: List.replicate (inputs.termLength - 1) 0
  let npv := calculateNPV cashFlowValues 8
  let roi := ((netProceeds - purchasePrice) / purchasePrice) * 100
  { totalInvestment := purchasePrice, netProceeds := netProceeds, roi := roi,
    irr := 0, cashFlow := cashFlow, npv := npv }

/-- The earn-out loop over years `2 .. termLength`; returns the rows and the
final `cumulative`. -/
def earnOutLoop (annualEarnOut taxRate : ℚ) :
    ℕ → ℕ → ℚ → List CashFlowRow × ℚ
  | 0, _, cum => ([], cum)
  | fuel + 1, year, cum =>
    let earnOutTax := annualEarnOut * (taxRate / 100)
    let earnOutNet := annualEarnOut - earnOutTax
    let cum' := cum + earnOutNet
    let row : CashFlowRow :=
      { year := year, principal := annualEarnOut, interest := 0,
        equityReturns := 0, preTaxTotal := annualEarnOut,
        taxImpact := -earnOutTax, netCashFlow := earnOutNet,
        cumulative := cum' }
    let rest := earnOutLoop annualEarnOut taxRate fuel (year + 1) cum'
    (row :: rest.1, rest.2)

/-- `calculateEarnOut`: 60% upfront in year 1, the remaining 40% spread over
`termLength - 1` further years. -/
def calculateEarnOut (inputs : DealInputs) : DealResults :=
  let purchasePrice := inputs.purchasePrice
  let termLength := inputs.termLength
  let upfrontPayment := purchasePrice * 0.6
  let earnOutAmount := purchasePrice * 0.4
  let annualEarnOut := earnOutAmount / ((termLength : ℚ) - 1)
  let year1Tax := upfrontPayment * (inputs.taxRate / 100)
  let year1Net := upfrontPayment - year1Tax
  let cum1 := 0 + year1Net
  let firstRow : CashFlowRow :=
    { year := 1, principal := upfrontPayment, interest := 0, equityReturns := 0,
      preTaxTotal := upfrontPayment, taxImpact := -year1Tax,
      netCashFlow := year1Net, cumulative := cum1 }
  let rest := earnOutLoop annualEarnOut inputs.taxRate (termLength - 1) 2 cum1
  let cashFlow := firstRow :: rest.1
  let cumulative := rest.2
  let cashFlowValues := cashFlow.map (·.netCashFlow)
  let npv := calculateNPV cashFlowValues 8
  let irr := calculateIRR (-upfrontPayment :: cashFlowValues.drop 1)
  { totalInvestment := upfrontPayment, netProceeds := cumulative,
    roi := ((cumulative - upfrontPayment) / upfrontPayment) * 100,
    irr := irr, cashFlow := cashFlow, npv := npv }

/-- The seller-financing loop over years `1 .. termLength`; the year-1 row
folds in the down payment.  Returns rows, final balance, final cumulative. -/
def sellerLoop (annualPayment interestRate taxRate downPayment downTax downNet : ℚ) :
    ℕ → ℕ → ℚ → ℚ → List CashFlowRow × ℚ × ℚ
  | 0, _, balance, cum => ([], balance, cum)
  | fuel + 1, year, balance, cum =>
    let interestPayment := balance * (interestRate / 100)
    let principalPayment := min (annualPayment - interestPayment) balance
    let totalPayment := principalPayment + interestPayment
    let paymentTax := totalPayment * (taxRate / 100)
    let netPayment := totalPayment - paymentTax
    let row : CashFlowRow :=
      if year = 1 then
        { year := year, principal := downPayment + principalPayment,
          interest := interestPayment, equityReturns := 0,
          preTaxTotal := downPayment + totalPayment,
          taxImpact := -(downTax + paymentTax),
          netCashFlow := downNet + netPayment,
          cumulative := downNet + netPayment }
      else
        { year := year, principal := principalPayment,
          interest := interestPayment, equityReturns := 0,
          preTaxTotal := totalPayment, taxImpact := -paymentTax,
          netCashFlow := netPayment, cumulative := cum + netPayment }
    let cum' := row.cumulative
    let balance' := balance - principalPayment
    if balance' ≤ 0 then ([row], balance', cum')
    else
      let rest := sellerLoop annualPayment interestRate taxRate downPayment
        downTax downNet fuel (year + 1) balance' cum'
      (row :: rest.1, rest.2)

/-- Seller financing down payment: 20% of the price. -/
def sellerDownPayment (inputs : DealInputs) : ℚ :=
  inputs.purchasePrice * 0.2

/-- Seller financing financed amount: the other 80%. -/
def sellerFinancedAmount (inputs : DealInputs) : ℚ :=
  inputs.purchasePrice - sellerDownPayment inputs

/-- Seller financing annual payment: twelve monthly payments. -/
def sellerAnnualPayment (inputs : DealInputs) : ℚ :=
  calculateMonthlyPayment (sellerFinancedAmount inputs) inputs.interestRate
    inputs.termLength * 12

/-- Seller financing down payment net of tax. -/
def sellerDownNet (inputs : DealInputs) : ℚ :=
  sellerDownPayment inputs - sellerDownPayment inputs * (inputs.taxRate / 100)

/-- The seller-financing schedule: rows, final remaining balance, final
cumulative. -/
def sellerSchedule (inputs : DealInputs) : List CashFlowRow × ℚ × ℚ :=
  sellerLoop (sellerAnnualPayment inputs) inputs.interestRate inputs.taxRate
    (sellerDownPayment inputs) (sellerDownPayment inputs * (inputs.taxRate / 100))
    (sellerDownNet inputs) inputs.termLength 1 (sellerFinancedAmount inputs)
    (sellerDownNet inputs)

/-- `calculateSellerFinancing`: 20% down, 80% financed. -/
def calculateSellerFinancing (inputs : DealInputs) : DealResults :=
  let downPayment := sellerDownPayment inputs
  let res := sellerSchedule inputs
  let cashFlow := res.1
  let cumulative := res.2.2
  let cashFlowValues := cashFlow.map (·.netCashFlow)
  let npv := calculateNPV cashFlowValues 8
  let irr := calculateIRR (-downPayment ::
    (cashFlowValues.dropLast ++ [cashFlowValues.getLast?.getD 0 - downPayment]))
  { totalInvestment := downPayment, netProceeds := cumulative,
    roi := ((cumulative - downPayment) / downPayment) * 100,
    irr := irr, cashFlow := cashFlow, npv := npv }

/-- The SBA loop over years `1 .. termLength`; each year credits 10% of the
purchase price as equity growth and nets out the after-tax loan payment.
Returns rows, final balance, final cumulative. -/
def sbaLoop (annualPayment interestRate taxRate purchasePrice downPayment downTax : ℚ) :
    ℕ → ℕ → ℚ → ℚ → List CashFlowRow × ℚ × ℚ
  | 0, _, balance, cum => ([], balance, cum)
  | fuel + 1, year, balance, cum =>
    let interestPayment := balance * (interestRate / 100)
    let principalPayment := min (annualPayment - interestPayment) balance
    let equityGrowth := purchasePrice * 0.1
    let equityTax := equityGrowth * (taxRate / 100)
    let netEquityGrowth := equityGrowth - equityTax
    let loanPaymentAfterTax :=
      (principalPayment + interestPayment) * (1 - taxRate / 100)
    let netYearlyReturn := netEquityGrowth - loanPaymentAfterTax
    let row : CashFlowRow :=
      if year = 1 then
        { year := year, principal := downPayment, interest := interestPayment,
          equityReturns := netEquityGrowth,
          preTaxTotal := downPayment + equityGrowth,
          taxImpact := -(downTax + equityTax),
          netCashFlow := netYearlyReturn - downPayment,
          cumulative := netYearlyReturn - downPayment }
      else
        { year := year, principal := principalPayment,
          interest := interestPayment, equityReturns := netEquityGrowth,
          preTaxTotal := principalPayment + interestPayment + equityGrowth,
          taxImpact := -equityTax, netCashFlow := netYearlyReturn,
          cumulative := cum + netYearlyReturn }
    let cum' := row.cumulative
    let balance' := balance - principalPayment
    if balance' ≤ 0 then ([row], balance', cum')
    else
      let rest := sbaLoop annualPayment interestRate taxRate purchasePrice
        downPayment downTax fuel (year + 1) balance' cum'
      (row :: rest.1, rest.2)

/-- SBA down payment: the enforced 10% of the price. -/
def sbaDownPayment (inputs : DealInputs) : ℚ :=
  inputs.purchasePrice * 0.1

/-- SBA loan amount: the financed 90%. -/
def sbaLoanAmount (inputs : DealInputs) : ℚ :=
  inputs.purchasePrice * 0.9

/-- SBA annual payment: twelve monthly payments. -/
def sbaAnnualPayment (inputs : DealInputs) : ℚ :=
  calculateMonthlyPayment (sbaLoanAmount inputs) inputs.interestRate
    inputs.termLength * 12

/-- The SBA schedule: rows, final remaining balance, final cumulative. -/
def sbaSchedule (inputs : DealInputs) : List CashFlowRow × ℚ × ℚ :=
  sbaLoop (sbaAnnualPayment inputs) inputs.interestRate inputs.taxRate
    inputs.purchasePrice (sbaDownPayment inputs)
    (sbaDownPayment inputs * (inputs.taxRate / 100)) inputs.termLength 1
    (sbaLoanAmount inputs) 0

/-- `calculateSBALoan`: 10% down, 90% financed, with the yearly equity
credit. -/
def calculateSBALoan (inputs : DealInputs) : DealResults :=
  let downPayment := sbaDownPayment inputs
  let res := sbaSchedule inputs
  let cashFlow := res.1
  let cumulative := res.2.2
  let cashFlowValues := cashFlow.map (·.netCashFlow)
  let npv := calculateNPV cashFlowValues 8
  let irr := calculateIRR cashFlowValues
  { totalInvestment := downPayment, netProceeds := cumulative,
    roi := ((cumulative - downPayment) / downPayment) * 100,
    irr := irr, cashFlow := cashFlow, npv := npv }

/-- The custom structure's initial payment: a present nonzero `downPayment`
is used as is; a missing or zero `downPayment` falls back to 25% of the
price (the source's `downPayment || purchasePrice * 0.25` with the
destructuring default `downPayment = 0`). -/
def customInitialPayment (inputs : DealInputs) : ℚ :=
  let downPayment := inputs.downPayment.getD 0
  if downPayment = 0 then inputs.purchasePrice * 0.25 else downPayment

/-- The custom structure's balloon amount (`balloonPayment || 0`). -/
def customBalloonAmount (inputs : DealInputs) : ℚ :=
  inputs.balloonPayment.getD 0

/-- Amount financed by the custom structure after the initial payment. -/
def customFinancedAmount (inputs : DealInputs) : ℚ :=
  inputs.purchasePrice - customInitialPayment inputs

/-- Regularly amortized part of the custom structure's financed amount
(the balloon is carved out). -/
def customRegularFinancedAmount (inputs : DealInputs) : ℚ :=
  customFinancedAmount inputs - customBalloonAmount inputs

/-- Annual payment of the custom structure; the monthly payment is only
computed when the regular financed amount is positive. -/
def customAnnualPayment (inputs : DealInputs) : ℚ :=
  let regular := customRegularFinancedAmount inputs
  let monthlyPayment :=
    if 0 < regular then
      calculateMonthlyPayment regular inputs.interestRate inputs.termLength
    else 0
  monthlyPayment * 12

/-- The custom loop over years `1 .. termLength`; the balloon amount joins
the payment (and the row's principal) only when `year = termLength`.
Returns rows, final balance, final cumulative. -/
def customLoop (annualPayment interestRate taxRate balloonAmount initialPayment
    initialTax initialNet : ℚ) (termLength : ℕ) :
    ℕ → ℕ → ℚ → ℚ → List CashFlowRow × ℚ × ℚ
  | 0, _, balance, cum => ([], balance, cum)
  | fuel + 1, year, balance, cum =>
    let interestPayment := balance * (interestRate / 100)
    let principalPayment := min (annualPayment - interestPayment) balance
    let totalPayment := principalPayment + interestPayment +
      (if year = termLength ∧ 0 < balloonAmount then balloonAmount else 0)
    let paymentTax := totalPayment * (taxRate / 100)
    let netPayment := totalPayment - paymentTax
    let row : CashFlowRow :=
      if year = 1 then
        { year := year,
          principal := initialPayment + principalPayment +
            (if year = termLength then balloonAmount else 0),
          interest := interestPayment, equityReturns := 0,
          preTaxTotal := initialPayment + totalPayment,
          taxImpact := -(initialTax + paymentTax),
          netCashFlow := initialNet + netPayment,
          cumulative := initialNet + netPayment }
      else
        { year := year,
          principal := principalPayment +
            (if year = termLength then balloonAmount else 0),
          interest := interestPayment, equityReturns := 0,
          preTaxTotal := totalPayment, taxImpact := -paymentTax,
          netCashFlow := netPayment, cumulative := cum + netPayment }
    let cum' := row.cumulative
    let balance' := balance - principalPayment
    if balance' ≤ 0 then ([row], balance', cum')
    else
      let rest := customLoop annualPayment interestRate taxRate balloonAmount
        initialPayment initialTax initialNet termLength fuel (year + 1)
        balance' cum'
      (row :: rest.1, rest.2)

/-- Custom initial payment net of tax. -/
def customInitialNet (inputs : DealInputs) : ℚ :=
  customInitialPayment inputs -
    customInitialPayment inputs * (inputs.taxRate / 100)

/-- The custom schedule: rows, final remaining balance, final cumulative. -/
def customSchedule (inputs : DealInputs) : List CashFlowRow × ℚ × ℚ :=
  customLoop (customAnnualPayment inputs) inputs.interestRate inputs.taxRate
    (customBalloonAmount inputs) (customInitialPayment inputs)
    (customInitialPayment inputs * (inputs.taxRate / 100))
    (customInitialNet inputs) inputs.termLength inputs.termLength 1
    (customRegularFinancedAmount inputs) (0 + customInitialNet inputs)

/-- The custom schedule recomputed with the balloon contribution stripped
from the rows; the amortization state (payment, balance) is unchanged, so
this isolates exactly where the balloon lands. -/
def customScheduleNoBalloon (inputs : DealInputs) : List CashFlowRow × ℚ × ℚ :=
  customLoop (customAnnualPayment inputs) inputs.interestRate inputs.taxRate 0
    (customInitialPayment inputs)
    (customInitialPayment inputs * (inputs.taxRate / 100))
    (customInitialNet inputs) inputs.termLength inputs.termLength 1
    (customRegularFinancedAmount inputs) (0 + customInitialNet inputs)

/-- `calculateCustom`: user-set down payment and balloon on top of the
shared amortization skeleton. -/
def calculateCustom (inputs : DealInputs) : DealResults :=
  let initialPayment := customInitialPayment inputs
  let res := customSchedule inputs
  let cashFlow := res.1
  let cumulative := res.2.2
  let cashFlowValues := cashFlow.map (·.netCashFlow)
  let npv := calculateNPV cashFlowValues 8
  let irr := calculateIRR (-initialPayment :: cashFlowValues.drop 1)
  { totalInvestment := initialPayment, netProceeds := cumulative,
    roi := ((cumulative - initialPayment) / initialPayment) * 100,
    irr := irr, cashFlow := cashFlow, npv := npv }

/-- `calculateDealStructure`: dispatch on the deal-type tag.  The source's
default branch (fall back to all-cash) is unreachable for the closed tag
set and therefore has no counterpart here. -/
def calculateDealStructure : DealType → DealInputs → DealResults
  | .allCash, inputs => calculateAllCash inputs
  | .earnOut, inputs => calculateEarnOut inputs
  | .sellerFinancing, inputs => calculateSellerFinancing inputs
  | .sbaLoan, inputs => calculateSBALoan inputs
  | .custom, inputs => calculateCustom inputs

/-! ## Batch (comparison) mode

The calculator page component iterates the five deal types in a fixed
order; each iteration calls the dispatcher inside its own try/catch, pushes
the comparison entry on success and merely reports the failure otherwise.
The exact-rational calculators above are total, so the possibility of a
JavaScript exception is modelled by running the batch over an arbitrary
fallible calculator `DealType → DealInputs → Except Unit DealResults`. -/

/-- The iteration order of comparison mode (`dealTypes` in the page
component). -/
def dealTypesList : List DealType :=
  [.allCash, .earnOut, .sellerFinancing, .sbaLoan, .custom]

/-- Display labels (`dealTypeLabels`). -/
def dealTypeLabel : DealType → String
  | .allCash => "All-Cash Offer"
  | .earnOut => "Earn-Out Structure"
  | .sellerFinancing => "Seller Financing"
  | .sbaLoan => "SBA 7(a) Loan"
  | .custom => "Custom Structure"

/-- Chart colors (`dealTypeColors`). -/
def dealTypeColor : DealType → String
  | .allCash => "#3B82F6"
  | .earnOut => "#10B981"
  | .sellerFinancing => "#F59E0B"
  | .sbaLoan => "#8B5CF6"
  | .custom => "#EF4444"

/-- One entry of the comparison set (`ComparisonData`). -/
structure ComparisonData where
  dealType : DealType
  label : String
  results : DealResults
  color : String
deriving DecidableEq

/-- `calculateDeals`: run every deal type, keep the successful results in
order, drop the failing ones (the per-iteration try/catch of the page
component). -/
def calculateDeals (calcFn : DealType → DealInputs → Except Unit DealResults)
    (inputs : DealInputs) : List ComparisonData :=
  dealTypesList.filterMap fun dt =>
    match calcFn dt inputs with
    | .ok results =>
      some { dealType := dt, label := dealTypeLabel dt, results := results,
             color := dealTypeColor dt }
    | .error _ => none

/-! ## JavaScript numbers with IEEE special values

The exact-rational model above identifies a finite JavaScript number with a
rational and in particular gives `x / 0 = 0`.  To settle the degenerate
earn-out claim honestly (`termLength = 1` divides by zero in JavaScript,
producing `Infinity`, not an exception), the earn-out calculator is embedded
a second time over a number type carrying the IEEE special values: a finite
rational (zero unsigned), two signed infinities and NaN.  Arithmetic on
finite values is exact; the special values follow the IEEE rules JavaScript
uses. -/

/-- A JavaScript number: finite (exact), ±Infinity, or NaN. -/
inductive JS where
  | num (q : ℚ)
  | inf (pos : Bool)
  | nan
deriving DecidableEq

namespace JS

/-- IEEE addition. -/
def add : JS → JS → JS
  | num a, num b => num (a + b)
  | num _, inf s => inf s
  | inf s, num _ => inf s
  | inf s, inf t => if s = t then inf s else nan
  | _, _ => nan

/-- IEEE negation. -/
def neg : JS → JS
  | num a => num (-a)
  | inf s => inf (!s)
  | nan => nan

/-- IEEE subtraction. -/
def sub (a b : JS) : JS := a.add b.neg

/-- IEEE multiplication. -/
def mul : JS → JS → JS
  | num a, num b => num (a * b)
  | num a, inf s => if a = 0 then nan else inf (s = decide (0 < a))
  | inf s, num b => if b = 0 then nan else inf (s = decide (0 < b))
  | inf s, inf t => inf (s = t)
  | _, _ => nan

/-- IEEE division (with the zero divisor treated as `+0`, which is the only
zero the engine can produce from integer arithmetic). -/
def div : JS → JS → JS
  | num a, num b =>
    if b = 0 then (if a = 0 then nan else inf (decide (0 < a)))
    else num (a / b)
  | num _, inf _ => num 0
  | inf s, num b => if b = 0 then inf s else inf (s = decide (0 < b))
  | inf _, inf _ => nan
  | _, _ => nan

/-- IEEE absolute value. -/
def abs : JS → JS
  | num a => num |a|
  | inf _ => inf true
  | nan => nan

/-- IEEE strict less-than (false whenever NaN is involved). -/
def blt : JS → JS → Bool
  | num a, num b => decide (a < b)
  | num _, inf s => s
  | inf s, num _ => !s
  | inf s, inf t => !s && t
  | _, _ => false

/-- `Math.pow` at a natural exponent, as iterated multiplication. -/
def natPow (a : JS) : ℕ → JS
  | 0 => num 1
  | n + 1 => (a.natPow n).mul a

/-- NaN test. -/
def isNaN : JS → Prop
  | nan => True
  | _ => False

instance (a : JS) : Decidable a.isNaN := by
  cases a <;> simp [isNaN] <;> infer_instance

end JS

/-- `calculateNPV` over IEEE-style numbers. -/
def calculateNPVjs (cashFlows : List JS) (discountRate : JS) : JS :=
  cashFlows.enum.foldl
    (fun npv yc =>
      npv.add (yc.2.div (((JS.num 1).add (discountRate.div (JS.num 100))).natPow (yc.1 + 1))))
    (JS.num 0)

/-- One Newton step of `calculateIRR` over IEEE-style numbers. -/
def irrStepJs (cashFlows : List JS) (rate : JS) : JS × JS :=
  cashFlows.enum.foldl
    (fun acc jc =>
      let factor := ((JS.num 1).add rate).natPow (jc.1 + 1)
      (acc.1.add (jc.2.div factor),
       acc.2.sub (((JS.num ((jc.1 : ℚ) + 1)).mul jc.2).div (factor.mul ((JS.num 1).add rate)))))
    (JS.num 0, JS.num 0)

/-- The bounded Newton iteration of `calculateIRR` over IEEE-style
numbers. -/
def irrGoJs (cashFlows : List JS) : ℕ → JS → JS
  | 0, rate => rate
  | n + 1, rate =>
    let s := irrStepJs cashFlows rate
    if (s.1.abs.blt (JS.num (1 / 10000))) = true then rate
    else irrGoJs cashFlows n (rate.sub (s.1.div s.2))

/-- `calculateIRR` over IEEE-style numbers. -/
def calculateIRRjs (cashFlows : List JS) : JS :=
  (irrGoJs cashFlows 100 (JS.num (1 / 10))).mul (JS.num 100)

/-- The earn-out loop over IEEE-style numbers. -/
def earnOutLoopJs (annualEarnOut taxRate : JS) :
    ℕ → ℕ → JS → List (CashFlowRowG JS) × JS
  | 0, _, cum => ([], cum)
  | fuel + 1, year, cum =>
    let earnOutTax := annualEarnOut.mul (taxRate.div (JS.num 100))
    let earnOutNet := annualEarnOut.sub earnOutTax
    let cum' := cum.add earnOutNet
    let row : CashFlowRowG JS :=
      { year := year, principal := annualEarnOut, interest := JS.num 0,
        equityReturns := JS.num 0, preTaxTotal := annualEarnOut,
        taxImpact := earnOutTax.neg, netCashFlow := earnOutNet,
        cumulative := cum' }
    let rest := earnOutLoopJs annualEarnOut taxRate fuel (year + 1) cum'
    (row :: rest.1, rest.2)

/-- `calculateEarnOut` over IEEE-style numbers; mirrors the exact-rational
embedding statement for statement, with JavaScript's division by zero kept
visible (`termLength = 1` makes `annualEarnOut` equal to `+Infinity`). -/
def calculateEarnOutJs (purchasePrice : JS) (termLength : ℕ) (taxRate : JS) :
    DealResultsG JS :=
  let upfrontPayment := purchasePrice.mul (JS.num 0.6)
  let earnOutAmount := purchasePrice.mul (JS.num 0.4)
  let annualEarnOut := earnOutAmount.div (JS.num ((termLength : ℚ) - 1))
  let year1Tax := upfrontPayment.mul (taxRate.div (JS.num 100))
  let year1Net := upfrontPayment.sub year1Tax
  let cum1 := (JS.num 0).add year1Net
  let firstRow : CashFlowRowG JS :=
    { year := 1, principal := upfrontPayment, interest := JS.num 0,
      equityReturns := JS.num 0, preTaxTotal := upfrontPayment,
      taxImpact := year1Tax.neg, netCashFlow := year1Net, cumulative := cum1 }
  let rest := earnOutLoopJs annualEarnOut taxRate (termLength - 1) 2 cum1
  let cashFlow := firstRow :: rest.1
  let cumulative := rest.2
  let cashFlowValues := cashFlow.map (·.netCashFlow)
  let npv := calculateNPVjs cashFlowValues (JS.num 8)
  let irr := calculateIRRjs (upfrontPayment.neg :: cashFlowValues.drop 1)
  { totalInvestment := upfrontPayment, netProceeds := cumulative,
    roi := ((cumulative.sub upfrontPayment).div upfrontPayment).mul (JS.num 100),
    irr := irr, cashFlow := cashFlow, npv := npv }

/-- No field of a cash-flow row is NaN. -/
def rowNoNaN (r : CashFlowRowG JS) : Prop :=
  ¬r.principal.isNaN ∧ ¬r.interest.isNaN ∧ ¬r.equityReturns.isNaN ∧
  ¬r.preTaxTotal.isNaN ∧ ¬r.taxImpact.isNaN ∧ ¬r.netCashFlow.isNaN ∧
  ¬r.cumulative.isNaN

/-- No numeric field of a result record (rows included) is NaN. -/
def resultsNoNaN (r : DealResultsG JS) : Prop :=
  ¬r.totalInvestment.isNaN ∧ ¬r.netProceeds.isNaN ∧ ¬r.roi.isNaN ∧
  ¬r.irr.isNaN ∧ ¬r.npv.isNaN ∧ ∀ row ∈ r.cashFlow, rowNoNaN row

/-- A fixed sample result record, used to instantiate the batch-isolation
scenario at concrete values. -/
def sampleDealResults : DealResults :=
  { totalInvestment := 1, netProceeds := 1, roi := 0, irr := 0, cashFlow := [],
    npv := 0 }

/-- A batch in which exactly the custom calculator fails: the concrete
instantiation of the batch-isolation scenario. -/
def sampleBatchCalc : DealType → DealInputs → Except Unit DealResults :=
  fun dt _ =>
    match dt with
    | .custom => .error ()
    | _ => .ok sampleDealResults

/-! ## Helper lemmas -/

/-- The running-total invariant of a schedule: starting from total `c`, each
row's `cumulative` equals the previous total plus the row's own
`netCashFlow` (so the first row of a schedule with `c = 0` has
`cumulative = netCashFlow`). -/
def chainFrom (c : ℚ) : List CashFlowRow → Prop
  | [] => True
  | row :: rest => row.cumulative = c + row.netCashFlow ∧ chainFrom row.cumulative rest

theorem earnOutLoop_chainFrom (a τ : ℚ) :
    ∀ fuel year cum, chainFrom cum (earnOutLoop a τ fuel year cum).1 := by
  intro fuel
  induction fuel with
  | zero => intro year cum; simp [earnOutLoop, chainFrom]
  | succ n ih =>
    intro year cum
    simpa [earnOutLoop, chainFrom] using ih (year + 1) (cum + (a - a * (τ / 100)))

theorem sellerLoop_chainFrom_tail (a r τ d dtx dn : ℚ) :
    ∀ fuel year balance cum, 2 ≤ year →
      chainFrom cum (sellerLoop a r τ d dtx dn fuel year balance cum).1 := by
  intro fuel
  induction fuel with
  | zero => intro year balance cum _; simp [sellerLoop, chainFrom]
  | succ n ih =>
    intro year balance cum hy
    have h1 : ¬year = 1 := by omega
    simp only [sellerLoop, if_neg h1]
    split
    · simp [chainFrom]
    · refine ⟨by simp, ?_⟩
      exact ih _ _ _ (by omega)

theorem sellerLoop_chainFrom (a r τ d dtx dn : ℚ) (fuel : ℕ) (balance cum : ℚ) :
    chainFrom 0 (sellerLoop a r τ d dtx dn fuel 1 balance cum).1 := by
  cases fuel with
  | zero => simp [sellerLoop, chainFrom]
  | succ n =>
    simp only [sellerLoop, if_pos rfl]
    split
    · simp [chainFrom]
    · refine ⟨by simp, ?_⟩
      exact sellerLoop_chainFrom_tail a r τ d dtx dn _ _ _ _ (by omega)

theorem sbaLoop_chainFrom_tail (a r τ p d dtx : ℚ) :
    ∀ fuel year balance cum, 2 ≤ year →
      chainFrom cum (sbaLoop a r τ p d dtx fuel year balance cum).1 := by
  intro fuel
  induction fuel with
  | zero => intro year balance cum _; simp [sbaLoop, chainFrom]
  | succ n ih =>
    intro year balance cum hy
    have h1 : ¬year = 1 := by omega
    simp only [sbaLoop, if_neg h1]
    split
    · simp [chainFrom]
    · refine ⟨by simp, ?_⟩
      exact ih _ _ _ (by omega)

theorem sbaLoop_chainFrom (a r τ p d dtx : ℚ) (fuel : ℕ) (balance cum : ℚ) :
    chainFrom 0 (sbaLoop a r τ p d dtx fuel 1 balance cum).1 := by
  cases fuel with
  | zero => simp [sbaLoop, chainFrom]
  | succ n =>
    simp only [sbaLoop, if_pos rfl]
    split
    · simp [chainFrom]
    · refine ⟨by simp, ?_⟩
      exact sbaLoop_chainFrom_tail a r τ p d dtx _ _ _ _ (by omega)

theorem customLoop_chainFrom_tail (a r τ b ip itax inet : ℚ) (T : ℕ) :
    ∀ fuel year balance cum, 2 ≤ year →
      chainFrom cum (customLoop a r τ b ip itax inet T fuel year balance cum).1 := by
  intro fuel
  induction fuel with
  | zero => intro year balance cum _; simp [customLoop, chainFrom]
  | succ n ih =>
    intro year balance cum hy
    have h1 : ¬year = 1 := by omega
    simp only [customLoop, if_neg h1]
    split
    · simp [chainFrom]
    · refine ⟨by simp, ?_⟩
      exact ih _ _ _ (by omega)

theorem customLoop_chainFrom (a r τ b ip itax inet : ℚ) (T : ℕ) (fuel : ℕ)
    (balance cum : ℚ) :
    chainFrom 0 (customLoop a r τ b ip itax inet T fuel 1 balance cum).1 := by
  cases fuel with
  | zero => simp [customLoop, chainFrom]
  | succ n =>
    simp only [customLoop, if_pos rfl]
    split
    · simp [chainFrom]
    · refine ⟨by simp, ?_⟩
      exact customLoop_chainFrom_tail a r τ b ip itax inet T _ _ _ _ (by omega)

theorem earnOutLoop_net (a τ : ℚ) :
    ∀ fuel year cum, ∀ row ∈ (earnOutLoop a τ fuel year cum).1,
      row.netCashFlow = row.preTaxTotal + row.taxImpact := by
  intro fuel
  induction fuel with
  | zero => intro year cum row hrow; simp [earnOutLoop] at hrow
  | succ n ih =>
    intro year cum row hrow
    simp only [earnOutLoop, List.mem_cons] at hrow
    rcases hrow with h | h
    · subst h; simp; ring
    · exact ih _ _ _ h

theorem sellerLoop_net (a r τ d dtx dn : ℚ) (hdn : dn = d - dtx) :
    ∀ fuel year balance cum,
      ∀ row ∈ (sellerLoop a r τ d dtx dn fuel year balance cum).1,
        row.netCashFlow = row.preTaxTotal + row.taxImpact := by
  intro fuel
  induction fuel with
  | zero => intro year B cum row hrow; simp [sellerLoop] at hrow
  | succ n ih =>
    intro year B cum row hrow
    simp only [sellerLoop] at hrow
    split at hrow
    · simp only [List.mem_singleton] at hrow
      subst hrow
      split <;> simp <;> (try rw [hdn]) <;> ring
    · simp only [List.mem_cons] at hrow
      rcases hrow with h | h
      · subst h
        split <;> simp <;> (try rw [hdn]) <;> ring
      · exact ih _ _ _ _ h

theorem customLoop_net (a r τ b ip itax inet : ℚ) (T : ℕ)
    (hin : inet = ip - itax) :
    ∀ fuel year balance cum,
      ∀ row ∈ (customLoop a r τ b ip itax inet T fuel year balance cum).1,
        row.netCashFlow = row.preTaxTotal + row.taxImpact := by
  intro fuel
  induction fuel with
  | zero => intro year B cum row hrow; simp [customLoop] at hrow
  | succ n ih =>
    intro year B cum row hrow
    simp only [customLoop] at hrow
    split at hrow
    · simp only [List.mem_singleton] at hrow
      subst hrow
      split <;> simp <;> (try rw [hin]) <;> ring
    · simp only [List.mem_cons] at hrow
      rcases hrow with h | h
      · subst h
        split <;> simp <;> (try rw [hin]) <;> ring
      · exact ih _ _ _ _ h

theorem sellerLoop_zero_rate (a τ d dtx dn : ℚ) (ha : 0 < a) :
    ∀ fuel year cum, 1 ≤ fuel → 1 ≤ year →
      (sellerLoop a 0 τ d dtx dn fuel year ((fuel : ℚ) * a) cum).1.length = fuel ∧
      (sellerLoop a 0 τ d dtx dn fuel year ((fuel : ℚ) * a) cum).2.1 = 0 ∧
      ((sellerLoop a 0 τ d dtx dn fuel year ((fuel : ℚ) * a) cum).1.map
        (·.principal)).sum = (fuel : ℚ) * a + (if year = 1 then d else 0) := by
  intro fuel
  induction fuel with
  | zero => intro year cum h0 _; exact absurd h0 (by omega)
  | succ n ih =>
    intro year cum _ hy
    simp only [sellerLoop]
    rw [show ((((n : ℕ) + 1 : ℕ) : ℚ) * a * ((0 : ℚ) / 100)) = 0 from by ring,
      sub_zero]
    have h1 : a ≤ (((n : ℕ) + 1 : ℕ) : ℚ) * a := by
      refine le_mul_of_one_le_left ha.le ?_
      push_cast
      linarith [Nat.cast_nonneg (α := ℚ) n]
    rw [min_eq_left h1,
      show ((((n : ℕ) + 1 : ℕ) : ℚ) * a - a) = (n : ℚ) * a from by
        push_cast; ring]
    rcases Nat.eq_zero_or_pos n with hn | hn
    · subst hn
      rw [if_pos (by simp)]
      refine ⟨by simp, by simp, ?_⟩
      by_cases h1' : year = 1 <;> simp [h1'] <;> ring
    · have hpos : ¬((n : ℚ) * a ≤ 0) := by
        push_neg
        exact mul_pos (by exact_mod_cast hn) ha
      rw [if_neg hpos]
      refine ⟨?_, ?_, ?_⟩
      · simp only [List.length_cons]
        rw [(ih (year + 1) _ (by omega) (by omega)).1]
      · exact (ih (year + 1) _ (by omega) (by omega)).2.1
      · simp only [List.map_cons, List.sum_cons]
        rw [(ih (year + 1) _ (by omega) (by omega)).2.2,
          if_neg (by omega : ¬(year + 1 = 1))]
        by_cases h1' : year = 1 <;> simp [h1'] <;> ring

theorem sbaLoop_zero_rate (a τ p d dtx : ℚ) (ha : 0 < a) :
    ∀ fuel year cum, 1 ≤ fuel → 1 ≤ year →
      (sbaLoop a 0 τ p d dtx fuel year ((fuel : ℚ) * a) cum).1.length = fuel ∧
      (sbaLoop a 0 τ p d dtx fuel year ((fuel : ℚ) * a) cum).2.1 = 0 := by
  intro fuel
  induction fuel with
  | zero => intro year cum h0 _; exact absurd h0 (by omega)
  | succ n ih =>
    intro year cum _ hy
    simp only [sbaLoop]
    rw [show ((((n : ℕ) + 1 : ℕ) : ℚ) * a * ((0 : ℚ) / 100)) = 0 from by ring,
      sub_zero]
    have h1 : a ≤ (((n : ℕ) + 1 : ℕ) : ℚ) * a := by
      refine le_mul_of_one_le_left ha.le ?_
      push_cast
      linarith [Nat.cast_nonneg (α := ℚ) n]
    rw [min_eq_left h1,
      show ((((n : ℕ) + 1 : ℕ) : ℚ) * a - a) = (n : ℚ) * a from by
        push_cast; ring]
    rcases Nat.eq_zero_or_pos n with hn | hn
    · subst hn
      rw [if_pos (by simp)]
      exact ⟨by simp, by simp⟩
    · have hpos : ¬((n : ℚ) * a ≤ 0) := by
        push_neg
        exact mul_pos (by exact_mod_cast hn) ha
      rw [if_neg hpos]
      refine ⟨?_, ?_⟩
      · simp only [List.length_cons]
        rw [(ih (year + 1) _ (by omega) (by omega)).1]
      · exact (ih (year + 1) _ (by omega) (by omega)).2

theorem customLoop_zero_rate (a τ b ip itax inet : ℚ) (T : ℕ) (ha : 0 < a) :
    ∀ fuel year cum, 1 ≤ fuel → 1 ≤ year →
      (customLoop a 0 τ b ip itax inet T fuel year ((fuel : ℚ) * a) cum).1.length
        = fuel ∧
      (customLoop a 0 τ b ip itax inet T fuel year ((fuel : ℚ) * a) cum).2.1
        = 0 := by
  intro fuel
  induction fuel with
  | zero => intro year cum h0 _; exact absurd h0 (by omega)
  | succ n ih =>
    intro year cum _ hy
    simp only [customLoop]
    rw [show ((((n : ℕ) + 1 : ℕ) : ℚ) * a * ((0 : ℚ) / 100)) = 0 from by ring,
      sub_zero]
    have h1 : a ≤ (((n : ℕ) + 1 : ℕ) : ℚ) * a := by
      refine le_mul_of_one_le_left ha.le ?_
      push_cast
      linarith [Nat.cast_nonneg (α := ℚ) n]
    rw [min_eq_left h1,
      show ((((n : ℕ) + 1 : ℕ) : ℚ) * a - a) = (n : ℚ) * a from by
        push_cast; ring]
    rcases Nat.eq_zero_or_pos n with hn | hn
    · subst hn
      rw [if_pos (by simp)]
      exact ⟨by simp, by simp⟩
    · have hpos : ¬((n : ℚ) * a ≤ 0) := by
        push_neg
        exact mul_pos (by exact_mod_cast hn) ha
      rw [if_neg hpos]
      refine ⟨?_, ?_⟩
      · simp only [List.length_cons]
        rw [(ih (year + 1) _ (by omega) (by omega)).1]
      · exact (ih (year + 1) _ (by omega) (by omega)).2

theorem customLoop_years (a r τ b ip itax inet : ℚ) (T : ℕ) :
    ∀ fuel year balance cum,
      ((customLoop a r τ b ip itax inet T fuel year balance cum).1.map (·.year))
        = List.range' year
            (customLoop a r τ b ip itax inet T fuel year balance cum).1.length := by
  intro fuel
  induction fuel with
  | zero => intro year B cum; simp [customLoop]
  | succ n ih =>
    intro year B cum
    simp only [customLoop]
    split
    · by_cases h1 : year = 1 <;> simp [h1, List.range'_one]
    · simp only [List.map_cons, List.length_cons, List.range'_succ]
      refine ?_
      rw [ih (year + 1) _ _]
      by_cases h1 : year = 1 <;> simp [h1]

theorem range'_one_add_getLast :
    ∀ (n m : ℕ), (List.range' m (n + 1)).getLast? = some (m + n) := by
  intro n
  induction n with
  | zero => intro m; simp [List.range'_one]
  | succ k ih =>
    intro m
    rw [List.range'_succ, List.range'_succ, List.getLast?_cons_cons,
      ← List.range'_succ, ih (m + 1)]
    congr 1
    omega

theorem customLoop_balloon_rows (a r τ b ip itax inet : ℚ) (T : ℕ) :
    ∀ fuel year balance cum cum2,
      List.Forall₂ (fun rb r0 => rb.year = r0.year ∧
          rb.principal = r0.principal + (if rb.year = T then b else 0))
        (customLoop a r τ b ip itax inet T fuel year balance cum).1
        (customLoop a r τ 0 ip itax inet T fuel year balance cum2).1 := by
  intro fuel
  induction fuel with
  | zero => intro year B cum cum2; simp [customLoop]
  | succ n ih =>
    intro year B cum cum2
    simp only [customLoop]
    split
    · refine List.Forall₂.cons ?_ List.Forall₂.nil
      dsimp only
      refine ⟨by simp [apply_ite CashFlowRowG.year], ?_⟩
      simp only [apply_ite CashFlowRowG.principal, apply_ite CashFlowRowG.year,
        ite_self]
      by_cases h1 : year = 1
      · subst h1
        by_cases hT : 1 = T
        · subst hT
          simp
        · simp [hT]
      · by_cases hT : year = T
        · subst hT
          simp [h1]
        · simp [h1, hT]
    · refine List.Forall₂.cons ?_ (ih (year + 1) _ _ _)
      dsimp only
      refine ⟨by simp [apply_ite CashFlowRowG.year], ?_⟩
      simp only [apply_ite CashFlowRowG.principal, apply_ite CashFlowRowG.year,
        ite_self]
      by_cases h1 : year = 1
      · subst h1
        by_cases hT : 1 = T
        · subst hT
          simp
        · simp [hT]
      · by_cases hT : year = T
        · subst hT
          simp [h1]
        · simp [h1, hT]

theorem allCash_tail_chainFrom (c : ℚ) (rows : List ℕ) :
    chainFrom c (rows.map fun year =>
      ({ year := year, principal := 0, interest := 0, equityReturns := 0,
         preTaxTotal := 0, taxImpact := 0, netCashFlow := 0,
         cumulative := c } : CashFlowRow)) := by
  induction rows with
  | nil => simp [chainFrom]
  | cons y ys ih => exact ⟨by simp, ih⟩

/-! ## Claim theorems -/

/-- C3 (confirmed): for every deal type and valid inputs, the returned
schedule satisfies the running-total invariant — the first row has
`cumulative = netCashFlow` and every later row's `cumulative` equals the
previous row's `cumulative` plus the row's own `netCashFlow`
(`chainFrom 0`). -/
theorem cumulative_invariant_all_structures (dt : DealType) (i : DealInputs)
    (_h : ValidInputs i) : chainFrom 0 (calculateDealStructure dt i).cashFlow := by
  cases dt
  case allCash =>
    show chainFrom 0 (calculateAllCash i).cashFlow
    refine ⟨by simp, ?_⟩
    exact allCash_tail_chainFrom _ _
  case earnOut =>
    show chainFrom 0 (calculateEarnOut i).cashFlow
    refine ⟨by simp, ?_⟩
    exact earnOutLoop_chainFrom _ _ _ _ _
  case sellerFinancing =>
    show chainFrom 0 (sellerSchedule i).1
    exact sellerLoop_chainFrom _ _ _ _ _ _ _ _ _
  case sbaLoan =>
    show chainFrom 0 (sbaSchedule i).1
    exact sbaLoop_chainFrom _ _ _ _ _ _ _ _ _
  case custom =>
    show chainFrom 0 (customSchedule i).1
    exact customLoop_chainFrom _ _ _ _ _ _ _ _ _ _ _

/-- Witness for C3 at concrete valid inputs. -/
theorem cumulative_invariant_all_structures_witness :
    ValidInputs ⟨500000, 5, 5, 25, 0, none, none⟩ ∧
    chainFrom 0 (calculateDealStructure DealType.allCash
      ⟨500000, 5, 5, 25, 0, none, none⟩).cashFlow :=
  ⟨by decide, cumulative_invariant_all_structures DealType.allCash _ (by decide)⟩

/-- C1 (amended): for the all-cash, earn-out, seller-financing and custom
structures, every schedule row satisfies
`netCashFlow = preTaxTotal + taxImpact`.  The SBA structure violates the
identity (see the counterexample): its rows net the after-tax loan payment
and the year-1 down payment out of `netCashFlow` while `preTaxTotal` only
carries the gross inflows. -/
theorem netCashFlow_reconciliation_non_sba (dt : DealType) (i : DealInputs)
    (_h : ValidInputs i) (hdt : dt ≠ DealType.sbaLoan) :
    ∀ row ∈ (calculateDealStructure dt i).cashFlow,
      row.netCashFlow = row.preTaxTotal + row.taxImpact := by
  cases dt
  case allCash =>
    intro row hrow
    simp only [calculateDealStructure, calculateAllCash, List.mem_cons,
      List.mem_map] at hrow
    rcases hrow with h | ⟨y, _, h⟩
    · subst h; simp; ring
    · rw [← h]; simp
  case earnOut =>
    intro row hrow
    simp only [calculateDealStructure, calculateEarnOut, List.mem_cons] at hrow
    rcases hrow with h | h
    · subst h; simp; ring
    · exact earnOutLoop_net _ _ _ _ _ _ h
  case sellerFinancing =>
    intro row hrow
    have hrow' : row ∈ (sellerSchedule i).1 := hrow
    exact sellerLoop_net _ _ _ _ _ _ rfl _ _ _ _ _ hrow'
  case sbaLoan => exact absurd rfl hdt
  case custom =>
    intro row hrow
    have hrow' : row ∈ (customSchedule i).1 := hrow
    exact customLoop_net _ _ _ _ _ _ _ _ rfl _ _ _ _ _ hrow'

/-- Witness for C1 at concrete valid inputs and the seller-financing
structure. -/
theorem netCashFlow_reconciliation_non_sba_witness :
    ValidInputs ⟨400000, 4, 5, 30, 0, none, none⟩ ∧
    DealType.sellerFinancing ≠ DealType.sbaLoan ∧
    ∀ row ∈ (calculateDealStructure DealType.sellerFinancing
        ⟨400000, 4, 5, 30, 0, none, none⟩).cashFlow,
      row.netCashFlow = row.preTaxTotal + row.taxImpact :=
  ⟨by decide, by decide,
    netCashFlow_reconciliation_non_sba DealType.sellerFinancing _ (by decide)
      (by decide)⟩

unseal Rat.mul Rat.add Rat.sub Rat.inv Rat.ofScientific in
/-- Counterexample for C1 as stated: at valid inputs, the SBA structure's
only schedule row has `netCashFlow = -90000` but
`preTaxTotal + taxImpact = 20000`. -/
theorem netCashFlow_reconciliation_sba_counterexample :
    ValidInputs ⟨100000, 1, 0, 0, 0, none, none⟩ ∧
    ¬∀ row ∈ (calculateDealStructure DealType.sbaLoan
        ⟨100000, 1, 0, 0, 0, none, none⟩).cashFlow,
      row.netCashFlow = row.preTaxTotal + row.taxImpact := by
  constructor
  · decide
  · decide

/-- C2 (amended): for the earn-out, seller-financing, SBA and custom
structures, the returned `npv` is the NPV at 8% of the structure's own
per-year `netCashFlow` sequence; the all-cash structure instead discounts
the pre-tax sequence `[purchasePrice, 0, ...]` (see the counterexample). -/
theorem npv_of_own_netCashFlow_non_allCash (dt : DealType) (i : DealInputs)
    (_h : ValidInputs i) (hdt : dt ≠ DealType.allCash) :
    (calculateDealStructure dt i).npv =
      calculateNPV ((calculateDealStructure dt i).cashFlow.map (·.netCashFlow)) 8 ∧
    (calculateAllCash i).npv =
      calculateNPV (i.purchasePrice :: List.replicate (i.termLength - 1) 0) 8 := by
  refine ⟨?_, rfl⟩
  cases dt
  case allCash => exact absurd rfl hdt
  all_goals rfl

/-- Witness for C2 at concrete valid inputs and the earn-out structure. -/
theorem npv_of_own_netCashFlow_non_allCash_witness :
    ValidInputs ⟨200000, 3, 6, 20, 0, none, none⟩ ∧
    DealType.earnOut ≠ DealType.allCash ∧
    (calculateDealStructure DealType.earnOut
        ⟨200000, 3, 6, 20, 0, none, none⟩).npv =
      calculateNPV ((calculateDealStructure DealType.earnOut
        ⟨200000, 3, 6, 20, 0, none, none⟩).cashFlow.map (·.netCashFlow)) 8 :=
  ⟨by decide, by decide,
    (npv_of_own_netCashFlow_non_allCash DealType.earnOut _ (by decide)
      (by decide)).1⟩

unseal Rat.mul Rat.add Rat.sub Rat.inv Rat.ofScientific in
/-- Counterexample for C2 as stated: at valid inputs with a 50% tax rate,
the all-cash `npv` discounts the pre-tax price (2500000/27) while the NPV
of its own `netCashFlow` sequence is 1250000/27. -/
theorem npv_allCash_counterexample :
    ValidInputs ⟨100000, 1, 0, 50, 0, none, none⟩ ∧
    (calculateDealStructure DealType.allCash
        ⟨100000, 1, 0, 50, 0, none, none⟩).npv ≠
      calculateNPV ((calculateDealStructure DealType.allCash
        ⟨100000, 1, 0, 50, 0, none, none⟩).cashFlow.map (·.netCashFlow)) 8 := by
  constructor
  · decide
  · decide

/-- C4 (confirmed): the all-cash fixed point — at purchase price 500000,
term 5 and 25% tax (any interest rate, retained equity and optional
fields), the all-cash result has `totalInvestment = 500000`,
`netProceeds = 375000`, `roi = -25` and `irr = 0`. -/
theorem allCash_fixed_point (r e : ℚ) (dp bp : Option ℚ) :
    (calculateAllCash ⟨500000, 5, r, 25, e, dp, bp⟩).totalInvestment = 500000 ∧
    (calculateAllCash ⟨500000, 5, r, 25, e, dp, bp⟩).netProceeds = 375000 ∧
    (calculateAllCash ⟨500000, 5, r, 25, e, dp, bp⟩).roi = -25 ∧
    (calculateAllCash ⟨500000, 5, r, 25, e, dp, bp⟩).irr = 0 := by
  refine ⟨rfl, ?_, ?_, rfl⟩ <;> show _ = _ <;> norm_num [calculateAllCash]

/-- C10 (confirmed): for every deal type and valid inputs (positive price,
optional down payment nonnegative), the returned `totalInvestment` is
strictly positive, so the ROI division `(netProceeds - totalInvestment) /
totalInvestment` never has a zero denominator. -/
theorem totalInvestment_positive (dt : DealType) (i : DealInputs)
    (h : ValidInputs i) : 0 < (calculateDealStructure dt i).totalInvestment := by
  obtain ⟨hp, -, -, -, -, -, -, hdp, -⟩ := h
  cases dt
  case allCash => exact hp
  case earnOut =>
    show (0 : ℚ) < i.purchasePrice * 0.6
    exact mul_pos hp (by norm_num)
  case sellerFinancing =>
    show (0 : ℚ) < sellerDownPayment i
    exact mul_pos hp (by norm_num)
  case sbaLoan =>
    show (0 : ℚ) < sbaDownPayment i
    exact mul_pos hp (by norm_num)
  case custom =>
    show (0 : ℚ) < customInitialPayment i
    rw [show customInitialPayment i =
      if i.downPayment.getD 0 = 0 then i.purchasePrice * 0.25
      else i.downPayment.getD 0 from rfl]
    split
    · exact mul_pos hp (by norm_num)
    · next hne => exact lt_of_le_of_ne hdp (Ne.symm hne)

/-- Witness for C10 at concrete valid inputs and the custom structure with
a present nonzero down payment. -/
theorem totalInvestment_positive_witness :
    ValidInputs ⟨100000, 3, 5, 25, 0, some 30000, none⟩ ∧
    0 < (calculateDealStructure DealType.custom
      ⟨100000, 3, 5, 25, 0, some 30000, none⟩).totalInvestment :=
  ⟨by decide, totalInvestment_positive DealType.custom _ (by decide)⟩

/-- C9 (amended): a present nonzero `downPayment` is used as the custom
structure's initial payment (`totalInvestment`) and the financed amount is
the price minus it; a present zero `downPayment` is treated like an absent
one and falls back to the default 25% of the price (see the
counterexample, caused by the falsy JavaScript `downPayment || ...`). -/
theorem custom_downPayment_override (i : DealInputs) (d : ℚ)
    (hd : i.downPayment = some d) (hd0 : d ≠ 0) :
    (calculateCustom i).totalInvestment = d ∧
    customFinancedAmount i = i.purchasePrice - d := by
  have h1 : customInitialPayment i = d := by
    rw [show customInitialPayment i =
      if i.downPayment.getD 0 = 0 then i.purchasePrice * 0.25
      else i.downPayment.getD 0 from rfl, hd]
    simp [hd0]
  exact ⟨h1, by unfold customFinancedAmount; rw [h1]⟩

/-- Witness for C9 at concrete inputs with `downPayment = 30000`. -/
theorem custom_downPayment_override_witness :
    (⟨100000, 3, 5, 25, 0, some 30000, none⟩ : DealInputs).downPayment =
      some 30000 ∧ (30000 : ℚ) ≠ 0 ∧
    (calculateCustom ⟨100000, 3, 5, 25, 0, some 30000, none⟩).totalInvestment
      = 30000 :=
  ⟨rfl, by decide,
    (custom_downPayment_override _ 30000 rfl (by decide)).1⟩

unseal Rat.mul Rat.add Rat.sub Rat.inv Rat.ofScientific in
/-- Counterexample for C9 as stated: with `downPayment` present and equal
to `0` at valid inputs, the custom calculator does not use that value —
`totalInvestment` is the 25% default (25000), not 0. -/
theorem custom_downPayment_zero_counterexample :
    (⟨100000, 3, 5, 25, 0, some 0, none⟩ : DealInputs).downPayment = some 0 ∧
    ValidInputs ⟨100000, 3, 5, 25, 0, some 0, none⟩ ∧
    (calculateCustom ⟨100000, 3, 5, 25, 0, some 0, none⟩).totalInvestment
      ≠ 0 ∧
    (calculateCustom ⟨100000, 3, 5, 25, 0, some 0, none⟩).totalInvestment
      = 25000 := by
  refine ⟨rfl, by decide, ?_, ?_⟩ <;> decide

/-- C5 (confirmed): in batch mode, when the calculator of one deal type
fails and the other four succeed, the comparison set consists of exactly
the four successful entries in iteration order — the failing structure is
omitted and the failure does not propagate.  Stated over an arbitrary
fallible calculator because the exact-rational calculators of this
embedding are total; the JavaScript ones may throw. -/
theorem batch_isolation (calcFn : DealType → DealInputs → Except Unit DealResults)
    (i : DealInputs) (d : DealType) (f : DealType → DealResults)
    (hok : ∀ d', d' ≠ d → calcFn d' i = .ok (f d'))
    (herr : calcFn d i = .error ()) :
    calculateDeals calcFn i =
      (dealTypesList.filter (fun d' => decide (d' ≠ d))).map
        (fun d' => { dealType := d', label := dealTypeLabel d',
                     results := f d', color := dealTypeColor d' }) := by
  cases d
  case allCash =>
    have e2 := hok .earnOut (by decide)
    have e3 := hok .sellerFinancing (by decide)
    have e4 := hok .sbaLoan (by decide)
    have e5 := hok .custom (by decide)
    simp [calculateDeals, dealTypesList, herr, e2, e3, e4, e5]
  case earnOut =>
    have e1 := hok .allCash (by decide)
    have e3 := hok .sellerFinancing (by decide)
    have e4 := hok .sbaLoan (by decide)
    have e5 := hok .custom (by decide)
    simp [calculateDeals, dealTypesList, herr, e1, e3, e4, e5]
  case sellerFinancing =>
    have e1 := hok .allCash (by decide)
    have e2 := hok .earnOut (by decide)
    have e4 := hok .sbaLoan (by decide)
    have e5 := hok .custom (by decide)
    simp [calculateDeals, dealTypesList, herr, e1, e2, e4, e5]
  case sbaLoan =>
    have e1 := hok .allCash (by decide)
    have e2 := hok .earnOut (by decide)
    have e3 := hok .sellerFinancing (by decide)
    have e5 := hok .custom (by decide)
    simp [calculateDeals, dealTypesList, herr, e1, e2, e3, e5]
  case custom =>
    have e1 := hok .allCash (by decide)
    have e2 := hok .earnOut (by decide)
    have e3 := hok .sellerFinancing (by decide)
    have e4 := hok .sbaLoan (by decide)
    simp [calculateDeals, dealTypesList, herr, e1, e2, e3, e4]

/-- Witness for C5: a batch in which exactly the custom calculator fails
produces exactly the other four entries. -/
theorem batch_isolation_witness :
    (∀ d', d' ≠ DealType.custom →
      sampleBatchCalc d' ⟨1, 1, 0, 0, 0, none, none⟩ =
        .ok ((fun _ => sampleDealResults) d')) ∧
    sampleBatchCalc DealType.custom ⟨1, 1, 0, 0, 0, none, none⟩ = .error () ∧
    calculateDeals sampleBatchCalc ⟨1, 1, 0, 0, 0, none, none⟩ =
      (dealTypesList.filter (fun d' => decide (d' ≠ DealType.custom))).map
        (fun d' => { dealType := d', label := dealTypeLabel d',
                     results := sampleDealResults, color := dealTypeColor d' }) := by
  refine ⟨?_, rfl, ?_⟩
  · intro d' h
    cases d' <;> first | rfl | exact absurd rfl h
  · exact batch_isolation sampleBatchCalc _ DealType.custom
      (fun _ => sampleDealResults)
      (by intro d' h; cases d' <;> first | rfl | exact absurd rfl h) rfl

/-- C7 (amended): at a zero interest rate (straight-line amortization) the
three financed structures amortize exactly: the schedule runs the full
stated term and the final remaining balance is exactly 0 — equivalently,
the loop's principal payments sum to the financed amount, since every year
reduces the balance by its principal payment.  For seller financing the
row-level principal sum is the financed amount plus the down payment (the
year-1 row also carries the down payment).  At positive rates the claim
fails: the yearly schedule charges interest on the full opening balance
while the payment is derived from monthly compounding, so the balance
stays positive at term (see the counterexample). -/
theorem amortization_zero_rate (i : DealInputs) (h : ValidInputs i)
    (hr : i.interestRate = 0) :
    ((sellerSchedule i).1.length = i.termLength ∧ (sellerSchedule i).2.1 = 0 ∧
      ((sellerSchedule i).1.map (·.principal)).sum =
        sellerDownPayment i + sellerFinancedAmount i) ∧
    ((sbaSchedule i).1.length = i.termLength ∧ (sbaSchedule i).2.1 = 0) ∧
    (0 < customRegularFinancedAmount i →
      (customSchedule i).1.length = i.termLength ∧
      (customSchedule i).2.1 = 0) := by
  obtain ⟨hp, hT1, -, -, -, -, -, -, -⟩ := h
  have hT0 : ((i.termLength : ℕ) : ℚ) ≠ 0 := Nat.cast_ne_zero.mpr (by omega)
  have hTpos : (0 : ℚ) < ((i.termLength : ℕ) : ℚ) := by
    exact_mod_cast Nat.pos_of_ne_zero (by omega)
  refine ⟨?_, ?_, ?_⟩
  · -- seller financing
    have hF : 0 < sellerFinancedAmount i := by
      unfold sellerFinancedAmount sellerDownPayment
      nlinarith
    have hA : sellerAnnualPayment i =
        sellerFinancedAmount i / ((i.termLength : ℕ) : ℚ) := by
      unfold sellerAnnualPayment calculateMonthlyPayment
      rw [hr, if_pos rfl]
      field_simp
      ring
    have ha : 0 < sellerAnnualPayment i := by
      rw [hA]; exact div_pos hF hTpos
    have hB : sellerFinancedAmount i =
        ((i.termLength : ℕ) : ℚ) * sellerAnnualPayment i := by
      rw [hA]; field_simp
    unfold sellerSchedule
    rw [hr, hB]
    obtain ⟨h1, h2, h3⟩ := sellerLoop_zero_rate (sellerAnnualPayment i)
      i.taxRate (sellerDownPayment i)
      (sellerDownPayment i * (i.taxRate / 100)) (sellerDownNet i) ha
      i.termLength 1 (sellerDownNet i) (by omega) (by omega)
    refine ⟨h1, h2, ?_⟩
    rw [h3, if_pos rfl, ← hB]
    ring
  · -- SBA
    have hF : 0 < sbaLoanAmount i := by
      unfold sbaLoanAmount
      nlinarith
    have hA : sbaAnnualPayment i =
        sbaLoanAmount i / ((i.termLength : ℕ) : ℚ) := by
      unfold sbaAnnualPayment calculateMonthlyPayment
      rw [hr, if_pos rfl]
      field_simp
      ring
    have ha : 0 < sbaAnnualPayment i := by
      rw [hA]; exact div_pos hF hTpos
    have hB : sbaLoanAmount i =
        ((i.termLength : ℕ) : ℚ) * sbaAnnualPayment i := by
      rw [hA]; field_simp
    unfold sbaSchedule
    rw [hr, hB]
    exact sbaLoop_zero_rate (sbaAnnualPayment i) i.taxRate i.purchasePrice
      (sbaDownPayment i) (sbaDownPayment i * (i.taxRate / 100)) ha
      i.termLength 1 0 (by omega) (by omega)
  · -- custom
    intro hc
    have hA : customAnnualPayment i =
        customRegularFinancedAmount i / ((i.termLength : ℕ) : ℚ) := by
      unfold customAnnualPayment calculateMonthlyPayment
      dsimp only
      rw [if_pos hc, hr, if_pos rfl]
      field_simp
      ring
    have ha : 0 < customAnnualPayment i := by
      rw [hA]; exact div_pos hc hTpos
    have hB : customRegularFinancedAmount i =
        ((i.termLength : ℕ) : ℚ) * customAnnualPayment i := by
      rw [hA]; field_simp
    unfold customSchedule
    rw [hr, hB]
    exact customLoop_zero_rate (customAnnualPayment i) i.taxRate
      (customBalloonAmount i) (customInitialPayment i)
      (customInitialPayment i * (i.taxRate / 100)) (customInitialNet i)
      i.termLength ha i.termLength 1 (0 + customInitialNet i)
      (by omega) (by omega)

/-- Witness for C7 (amended) at price 100000, term 4, rate 0. -/
theorem amortization_zero_rate_witness :
    ValidInputs ⟨100000, 4, 0, 25, 0, none, none⟩ ∧
    (⟨100000, 4, 0, 25, 0, none, none⟩ : DealInputs).interestRate = 0 ∧
    (((sellerSchedule ⟨100000, 4, 0, 25, 0, none, none⟩).1.length = 4 ∧
      (sellerSchedule ⟨100000, 4, 0, 25, 0, none, none⟩).2.1 = 0 ∧
      ((sellerSchedule ⟨100000, 4, 0, 25, 0, none, none⟩).1.map
        (·.principal)).sum =
        sellerDownPayment ⟨100000, 4, 0, 25, 0, none, none⟩ +
          sellerFinancedAmount ⟨100000, 4, 0, 25, 0, none, none⟩) ∧
    ((sbaSchedule ⟨100000, 4, 0, 25, 0, none, none⟩).1.length = 4 ∧
      (sbaSchedule ⟨100000, 4, 0, 25, 0, none, none⟩).2.1 = 0) ∧
    (0 < customRegularFinancedAmount ⟨100000, 4, 0, 25, 0, none, none⟩ →
      (customSchedule ⟨100000, 4, 0, 25, 0, none, none⟩).1.length = 4 ∧
      (customSchedule ⟨100000, 4, 0, 25, 0, none, none⟩).2.1 = 0)) :=
  ⟨by decide, rfl, amortization_zero_rate _ (by decide) rfl⟩

unseal Rat.mul Rat.add Rat.sub Rat.inv Rat.ofScientific in
/-- Counterexample for C7 as stated: seller financing at price 100000,
term 1, rate 50%, tax 0 runs the full stated term with no early payoff,
yet the final remaining balance stays strictly positive — so the principal
paid misses the financed amount 80000 by more than 5% (the exact shortfall
is about 16718, far beyond floating-point tolerance). -/
theorem amortization_positive_rate_counterexample :
    ValidInputs ⟨100000, 1, 50, 0, 0, none, none⟩ ∧
    (sellerSchedule ⟨100000, 1, 50, 0, 0, none, none⟩).1.length =
      (⟨100000, 1, 50, 0, 0, none, none⟩ : DealInputs).termLength ∧
    ¬((sellerSchedule ⟨100000, 1, 50, 0, 0, none, none⟩).2.1 ≤ 0) ∧
    sellerFinancedAmount ⟨100000, 1, 50, 0, 0, none, none⟩ -
        (sellerSchedule ⟨100000, 1, 50, 0, 0, none, none⟩).2.1 <
      sellerFinancedAmount ⟨100000, 1, 50, 0, 0, none, none⟩ * (95 / 100) := by
  refine ⟨by decide, ?_, ?_, ?_⟩ <;> decide

/-- C8 (amended): the custom structure adds the balloon amount to the
principal of exactly the rows whose `year` equals `termLength`: row for
row, the schedule equals the balloon-stripped schedule except that such a
row's principal carries `+ balloon`; the years run `1, 2, ...`
consecutively, so when the schedule reaches the full stated term this is
precisely the final row — but when the loop terminates early (for example
`balloonPayment ≥` the financed amount, which exhausts the balance in year
1) no row has `year = termLength` and the balloon is added nowhere (see
the counterexample). -/
theorem custom_balloon_final_year_only (i : DealInputs) (h : ValidInputs i)
    (_hb : 0 < customBalloonAmount i) :
    List.Forall₂ (fun rb r0 => rb.year = r0.year ∧
        rb.principal = r0.principal +
          (if rb.year = i.termLength then customBalloonAmount i else 0))
      (customSchedule i).1 (customScheduleNoBalloon i).1 ∧
    (customSchedule i).1.map (·.year) =
      List.range' 1 (customSchedule i).1.length ∧
    ((customSchedule i).1.length = i.termLength →
      (customSchedule i).1.getLast?.map (·.year) = some i.termLength) := by
  obtain ⟨-, hT1, -, -, -, -, -, -, -⟩ := h
  refine ⟨?_, ?_, ?_⟩
  · exact customLoop_balloon_rows _ _ _ _ _ _ _ _ _ _ _ _ _
  · exact customLoop_years _ _ _ _ _ _ _ _ _ _ _ _
  · intro hlen
    have hy : (customSchedule i).1.map (·.year) =
        List.range' 1 (customSchedule i).1.length :=
      customLoop_years _ _ _ _ _ _ _ _ _ _ _ _
    rw [← List.getLast?_map, hy, hlen]
    obtain ⟨m, hm⟩ : ∃ m, i.termLength = m + 1 := ⟨i.termLength - 1, by omega⟩
    rw [hm, range'_one_add_getLast]
    congr 1
    omega

/-- Witness for C8 at price 100000, term 2, rate 0, balloon 10000 (the
schedule runs the full term). -/
theorem custom_balloon_final_year_only_witness :
    ValidInputs ⟨100000, 2, 0, 25, 0, none, some 10000⟩ ∧
    0 < customBalloonAmount ⟨100000, 2, 0, 25, 0, none, some 10000⟩ ∧
    (List.Forall₂ (fun rb r0 => rb.year = r0.year ∧
        rb.principal = r0.principal +
          (if rb.year = 2 then
            customBalloonAmount ⟨100000, 2, 0, 25, 0, none, some 10000⟩ else 0))
      (customSchedule ⟨100000, 2, 0, 25, 0, none, some 10000⟩).1
      (customScheduleNoBalloon ⟨100000, 2, 0, 25, 0, none, some 10000⟩).1 ∧
    (customSchedule ⟨100000, 2, 0, 25, 0, none, some 10000⟩).1.map (·.year) =
      List.range' 1
        (customSchedule ⟨100000, 2, 0, 25, 0, none, some 10000⟩).1.length ∧
    ((customSchedule ⟨100000, 2, 0, 25, 0, none, some 10000⟩).1.length = 2 →
      (customSchedule ⟨100000, 2, 0, 25, 0, none,
        some 10000⟩).1.getLast?.map (·.year) = some 2)) :=
  ⟨by decide, by decide,
    custom_balloon_final_year_only ⟨100000, 2, 0, 25, 0, none, some 10000⟩
      (by decide) (by decide)⟩

unseal Rat.mul Rat.add Rat.sub Rat.inv Rat.ofScientific in
/-- Counterexample for C8 as stated: at valid inputs with
`balloonPayment = 75000` equal to the financed amount (price 100000, no
down payment given, so 25000 initial and 75000 financed), the balance is
exhausted in year 1 and the schedule stops before `termLength = 3`: no row
has `year = 3`, the single row's principal equals the balloon-stripped
principal, and the balloon is added to no row. -/
theorem custom_balloon_dropped_counterexample :
    ValidInputs ⟨100000, 3, 5, 25, 0, none, some 75000⟩ ∧
    0 < customBalloonAmount ⟨100000, 3, 5, 25, 0, none, some 75000⟩ ∧
    (customSchedule ⟨100000, 3, 5, 25, 0, none, some 75000⟩).1.map (·.year)
      = [1] ∧
    (∀ row ∈ (customSchedule ⟨100000, 3, 5, 25, 0, none, some 75000⟩).1,
      row.year ≠ (⟨100000, 3, 5, 25, 0, none,
        some 75000⟩ : DealInputs).termLength) ∧
    (customSchedule ⟨100000, 3, 5, 25, 0, none, some 75000⟩).1.map
        (·.principal) =
      (customScheduleNoBalloon ⟨100000, 3, 5, 25, 0, none, some 75000⟩).1.map
        (·.principal) := by
  refine ⟨by decide, by decide, ?_, ?_, ?_⟩ <;> decide

/-! ## JS-model lemmas for the degenerate earn-out claim -/

theorem JS.add_num (a b : ℚ) : (JS.num a).add (JS.num b) = JS.num (a + b) := rfl

theorem JS.sub_num (a b : ℚ) : (JS.num a).sub (JS.num b) = JS.num (a - b) := by
  simp [JS.sub, JS.neg, JS.add, sub_eq_add_neg]

theorem JS.mul_num (a b : ℚ) : (JS.num a).mul (JS.num b) = JS.num (a * b) := rfl

theorem JS.neg_num (a : ℚ) : (JS.num a).neg = JS.num (-a) := rfl

theorem JS.abs_num (a : ℚ) : (JS.num a).abs = JS.num |a| := rfl

theorem JS.blt_num (a b : ℚ) : (JS.num a).blt (JS.num b) = decide (a < b) := rfl

theorem JS.div_num (a b : ℚ) (hb : b ≠ 0) :
    (JS.num a).div (JS.num b) = JS.num (a / b) := by
  simp [JS.div, hb]

theorem JS.natPow_num (a : ℚ) : ∀ n, (JS.num a).natPow n = JS.num (a ^ n) := by
  intro n
  induction n with
  | zero => rfl
  | succ k ih => rw [JS.natPow, ih, JS.mul_num, ← pow_succ]

theorem JS.isNaN_num (a : ℚ) : ¬(JS.num a).isNaN := by simp [JS.isNaN]

theorem irrGoJs_single_neg (u : ℚ) (hu : 0 < u) :
    ∀ fuel r, 0 < r →
      ∃ s, irrGoJs [JS.num (-u)] fuel (JS.num r) = JS.num s ∧ 0 < s := by
  intro fuel
  induction fuel with
  | zero => intro r hr; exact ⟨r, rfl, hr⟩
  | succ n ih =>
    intro r hr
    have h1r : (0 : ℚ) < 1 + r := by linarith
    have h1r' : (1 : ℚ) + r ≠ 0 := ne_of_gt h1r
    have hu' : u ≠ 0 := ne_of_gt hu
    have hstep : irrStepJs [JS.num (-u)] (JS.num r) =
        (JS.num (-u / (1 + r)), JS.num (u / ((1 + r) * (1 + r)))) := by
      simp only [irrStepJs, List.enum, List.enumFrom, List.foldl,
        JS.add_num, JS.mul_num, JS.natPow_num, Nat.cast_zero, zero_add,
        pow_one, one_mul]
      rw [JS.div_num _ _ h1r', JS.div_num _ _ (mul_ne_zero h1r' h1r'),
        JS.add_num, JS.sub_num]
      refine Prod.ext ?_ ?_ <;> simp only <;> congr 1
      · ring
      · field_simp
    rw [irrGoJs, hstep]
    simp only [JS.abs_num, JS.blt_num]
    by_cases hsmall : |(-u / (1 + r))| < 1 / 10000
    · rw [if_pos (by simpa using hsmall)]
      exact ⟨r, rfl, hr⟩
    · rw [if_neg (by simpa using hsmall)]
      have hden : u / ((1 + r) * (1 + r)) ≠ 0 :=
        ne_of_gt (div_pos hu (mul_pos h1r h1r))
      rw [JS.div_num _ _ hden, JS.sub_num]
      have hq : r - -u / (1 + r) / (u / ((1 + r) * (1 + r))) = 2 * r + 1 := by
        field_simp
        ring
      rw [hq]
      exact ih (2 * r + 1) (by linarith)

/-- C6 (confirmed): in the IEEE-special-value model, the earn-out
calculator at `termLength = 1` raises nothing (JavaScript division by zero
yields `Infinity`, which the year loop never consumes because it runs over
years `2..1`, i.e. not at all): the result is a year-1-only schedule and no
field of the results or of its rows is NaN. -/
theorem earnOut_termLength_one_degenerate (p τ : ℚ) (hp : 0 < p) :
    (calculateEarnOutJs (JS.num p) 1 (JS.num τ)).cashFlow.map (·.year) = [1] ∧
    resultsNoNaN (calculateEarnOutJs (JS.num p) 1 (JS.num τ)) := by
  have h100 : (100 : ℚ) ≠ 0 := by norm_num
  have hup : (0 : ℚ) < p * 0.6 := mul_pos hp (by norm_num)
  have hupne : p * 0.6 ≠ 0 := ne_of_gt hup
  have eU : (JS.num p).mul (JS.num 0.6) = JS.num (p * 0.6) := rfl
  have eTax : ((JS.num p).mul (JS.num 0.6)).mul ((JS.num τ).div (JS.num 100))
      = JS.num (p * 0.6 * (τ / 100)) := by
    rw [JS.div_num _ _ h100, eU, JS.mul_num]
  have eNet : ((JS.num p).mul (JS.num 0.6)).sub
      (((JS.num p).mul (JS.num 0.6)).mul ((JS.num τ).div (JS.num 100)))
      = JS.num (p * 0.6 - p * 0.6 * (τ / 100)) := by
    rw [eTax, eU, JS.sub_num]
  have eCum : (JS.num 0).add (((JS.num p).mul (JS.num 0.6)).sub
      (((JS.num p).mul (JS.num 0.6)).mul ((JS.num τ).div (JS.num 100))))
      = JS.num (0 + (p * 0.6 - p * 0.6 * (τ / 100))) := by
    rw [eNet, JS.add_num]
  obtain ⟨s, hs, -⟩ :=
    irrGoJs_single_neg (p * 0.6) hup 100 (1 / 10) (by norm_num)
  refine ⟨rfl, ?_⟩
  unfold resultsNoNaN
  refine ⟨?_, ?_, ?_, ?_, ?_, ?_⟩
  · show ¬((JS.num p).mul (JS.num 0.6)).isNaN
    rw [eU]
    exact JS.isNaN_num _
  · show ¬((JS.num 0).add (((JS.num p).mul (JS.num 0.6)).sub
      (((JS.num p).mul (JS.num 0.6)).mul ((JS.num τ).div (JS.num 100))))).isNaN
    rw [eCum]
    exact JS.isNaN_num _
  · show ¬(((((JS.num 0).add (((JS.num p).mul (JS.num 0.6)).sub
        (((JS.num p).mul (JS.num 0.6)).mul
          ((JS.num τ).div (JS.num 100))))).sub
        ((JS.num p).mul (JS.num 0.6))).div
          ((JS.num p).mul (JS.num 0.6))).mul (JS.num 100)).isNaN
    rw [eCum, eU, JS.sub_num, JS.div_num _ _ hupne, JS.mul_num]
    exact JS.isNaN_num _
  · show ¬((irrGoJs [JS.num (-(p * 0.6))] 100 (JS.num (1 / 10))).mul
      (JS.num 100)).isNaN
    rw [hs, JS.mul_num]
    exact JS.isNaN_num _
  · show ¬((JS.num 0).add ((((JS.num p).mul (JS.num 0.6)).sub
      (((JS.num p).mul (JS.num 0.6)).mul ((JS.num τ).div (JS.num 100)))).div
        (((JS.num 1).add ((JS.num 8).div (JS.num 100))).natPow (0 + 1)))).isNaN
    rw [eNet, JS.div_num _ _ h100, JS.add_num, JS.natPow_num,
      JS.div_num _ _ (by norm_num : (1 + (8 : ℚ) / 100) ^ (0 + 1) ≠ 0),
      JS.add_num]
    exact JS.isNaN_num _
  · intro row hrow
    rw [show (calculateEarnOutJs (JS.num p) 1 (JS.num τ)).cashFlow =
      [{ year := 1, principal := (JS.num p).mul (JS.num 0.6),
         interest := JS.num 0, equityReturns := JS.num 0,
         preTaxTotal := (JS.num p).mul (JS.num 0.6),
         taxImpact := (((JS.num p).mul (JS.num 0.6)).mul
           ((JS.num τ).div (JS.num 100))).neg,
         netCashFlow := ((JS.num p).mul (JS.num 0.6)).sub
           (((JS.num p).mul (JS.num 0.6)).mul ((JS.num τ).div (JS.num 100))),
         cumulative := (JS.num 0).add (((JS.num p).mul (JS.num 0.6)).sub
           (((JS.num p).mul (JS.num 0.6)).mul
             ((JS.num τ).div (JS.num 100)))) }] from rfl] at hrow
    rw [List.mem_singleton] at hrow
    subst hrow
    unfold rowNoNaN
    refine ⟨?_, ?_, ?_, ?_, ?_, ?_, ?_⟩
    · show ¬((JS.num p).mul (JS.num 0.6)).isNaN
      rw [eU]; exact JS.isNaN_num _
    · exact JS.isNaN_num 0
    · exact JS.isNaN_num 0
    · show ¬((JS.num p).mul (JS.num 0.6)).isNaN
      rw [eU]; exact JS.isNaN_num _
    · show ¬((((JS.num p).mul (JS.num 0.6)).mul
        ((JS.num τ).div (JS.num 100))).neg).isNaN
      rw [eTax, JS.neg_num]; exact JS.isNaN_num _
    · show ¬(((JS.num p).mul (JS.num 0.6)).sub
        (((JS.num p).mul (JS.num 0.6)).mul ((JS.num τ).div (JS.num 100)))).isNaN
      rw [eNet]; exact JS.isNaN_num _
    · show ¬((JS.num 0).add (((JS.num p).mul (JS.num 0.6)).sub
        (((JS.num p).mul (JS.num 0.6)).mul
          ((JS.num τ).div (JS.num 100))))).isNaN
      rw [eCum]; exact JS.isNaN_num _

/-- Witness for C6 at price 500000 and 25% tax. -/
theorem earnOut_termLength_one_degenerate_witness :
    (0 : ℚ) < 500000 ∧
    ((calculateEarnOutJs (JS.num 500000) 1 (JS.num 25)).cashFlow.map (·.year)
      = [1] ∧
    resultsNoNaN (calculateEarnOutJs (JS.num 500000) 1 (JS.num 25))) :=
  ⟨by norm_num, earnOut_termLength_one_degenerate 500000 25 (by norm_num)⟩
